import Mathlib

/-!
Shallow embedding of `arango/database.py` (the `Database` facade of py-arango).

The transport layer (`self._api`) is modelled as an oracle `api : Nat → Response`
giving the server's response to the n-th request issued; every facade operation
is an explicit state-passing function on a `World` holding the oracle, a request
counter, the trace of issued requests, and the two proxy caches.  Exceptions are
modelled with `Except`, but — matching Python, where an exception leaves already
performed mutations of `self` in place — every operation also returns the final
`World`, whether it raised or not.

Response bodies are modelled as JSON-like values (`JVal`).  Python would raise
`KeyError` on a success response whose body lacks an expected field; field
extraction here is totalised with `JVal.null` / `""` defaults instead, so
malformed success bodies are outside the scope of the error-mapping theorems.
-/

namespace PyArango

/-- JSON-like values: the payloads of requests and responses. -/
inductive JVal where
  | null : JVal
  | bool : Bool → JVal
  | num : Int → JVal
  | str : String → JVal
  | arr : List JVal → JVal
  | obj : List (String × JVal) → JVal
deriving Repr

/-- Association-list lookup (Python `dict[key]` / `key in dict`). -/
def alookup {π : Type} (s : String) : List (String × π) → Option π
  | [] => none
  | (k, v) :: rest => if k = s then some v else alookup s rest

/-- Keys of an association list (Python `dict.keys()`). -/
def akeys {π : Type} (cache : List (String × π)) : List String :=
  cache.map (fun kv => kv.1)

/-- Field access on a JSON object, `null` on anything else or a missing key. -/
def JVal.getObj (v : JVal) (k : String) : JVal :=
  match v with
  | .obj kvs => (alookup k kvs).getD JVal.null
  | _ => JVal.null

/-- Python `key in obj` on a JSON object. -/
def JVal.hasKey (v : JVal) (k : String) : Bool :=
  match v with
  | .obj kvs => (alookup k kvs).isSome
  | _ => false

/-- Elements of a JSON array, `[]` on anything else. -/
def JVal.asArr : JVal → List JVal
  | .arr xs => xs
  | _ => []

/-- String content of a JSON string, `""` on anything else. -/
def JVal.asString : JVal → String
  | .str s => s
  | _ => ""

/-- Python truthiness of a JSON value (`if collection["isSystem"]:`). -/
def JVal.truthy : JVal → Bool
  | .null => false
  | .bool b => b
  | .num n => n != 0
  | .str s => s != ""
  | .arr xs => !xs.isEmpty
  | .obj kvs => !kvs.isEmpty

/-- An optional integer as a JSON value: Python `None` serialises to `null`. -/
def optNum : Option Int → JVal
  | none => JVal.null
  | some n => JVal.num n

/-- A transport response: HTTP status code and parsed body (`res.obj`). -/
structure Response where
  status_code : Nat
  obj : JVal
deriving Repr

/-- A request as assembled by the facade: method, path, body and query params. -/
structure Request where
  method : String
  path : String
  data : Option JVal
  params : Option JVal
deriving Repr

/-- The collection proxy (`arango.collection.Collection`): bound to a name. -/
structure Collection where
  name : String
deriving Repr, DecidableEq

/-- The graph proxy (`arango.graph.Graph`): bound to a name. -/
structure Graph where
  name : String
deriving Repr, DecidableEq

/-- Modelled from the spec: the cursor factory (`arango.cursor.CursorFactory`,
not under `src/`) consumes the raw creation response and models pagination,
which is out of scope here; the local representative just wraps the response. -/
structure Cursor where
  res : Response
deriving Repr

/-- The state of a `Database` facade together with its transport:
`api n` is the server's response to the n-th request, `count` the number of
requests issued so far, `trace` the requests issued so far in order,
`cursors_made` counts invocations of the cursor factory. -/
structure World where
  api : Nat → Response
  count : Nat
  trace : List Request
  collection_cache : List (String × Collection)
  graph_cache : List (String × Graph)
  cursors_made : Nat

/-- Issue one request through the transport: records it in the trace and
consumes the next scripted response. -/
def issue (w : World) (req : Request) : Response × World :=
  (w.api w.count,
   { w with count := w.count + 1, trace := w.trace ++ [req] })

/-- Modelled from the spec: cursor construction (`self.cursor(res)` from the
mixed-in `CursorFactory`, not under `src/`) — hands the creation response to
the cursor layer; we count the invocation. -/
def mkCursor (w : World) (res : Response) : Cursor × World :=
  (⟨res⟩, { w with cursors_made := w.cursors_made + 1 })

/-- The typed error taxonomy of `arango.exceptions`, restricted to the kinds
the `Database` facade raises; response-carrying kinds hold the raw response. -/
inductive ArangoError where
  | databaseProperty (res : Response)
  | queryExplain (res : Response)
  | queryValidate (res : Response)
  | queryExecute (res : Response)
  | collectionList (res : Response)
  | collectionNotFound (name : String)
  | collectionAdd (res : Response)
  | collectionRemove (res : Response)
  | collectionRename (res : Response)
  | aqlFunctionList (res : Response)
  | aqlFunctionAdd (res : Response)
  | aqlFunctionRemove (res : Response)
  | transactionExecute (res : Response)
  | graphList (res : Response)
  | graphNotFound (name : String)
  | graphAdd (res : Response)
  | graphRemove (res : Response)
  | typeError (msg : String)
deriving Repr

/-- A Python argument value, as far as the facade's `isinstance` checks care. -/
inductive PyVal where
  | str (s : String)
  | int (n : Int)
  | noneVal
deriving Repr, DecidableEq

/-- Modelled from the spec: `uncamelify` of a single key (`arango.utils`, not
under `src/`): translation from the wire (camelCase) naming convention to the
internal (snake_case) one — an external collaborator whose only contract is
renaming field names. -/
def uncamelify_key (s : String) : String :=
  String.mk ((s.data.map (fun c => if c.isUpper then ['_', c.toLower] else [c])).flatten)

mutual

/-- Modelled from the spec: `uncamelify` (`arango.utils`, not under `src/`)
renames every field of a JSON value from the wire convention to the internal
one, preserving the structure of the value. -/
def uncamelify : JVal → JVal
  | .obj kvs => .obj (uncamelifyFields kvs)
  | .arr xs => .arr (uncamelifyArr xs)
  | v => v

/-- Field-wise `uncamelify` over an object's fields. -/
def uncamelifyFields : List (String × JVal) → List (String × JVal)
  | [] => []
  | (k, v) :: rest => (uncamelify_key k, uncamelify v) :: uncamelifyFields rest

/-- Element-wise `uncamelify` over an array. -/
def uncamelifyArr : List JVal → List JVal
  | [] => []
  | v :: rest => uncamelify v :: uncamelifyArr rest

end

/-- The diff-based reconciliation pass shared (textually duplicated in the
source) by `_update_collection_cache` and `_update_graph_cache`:
`real = set(remote)`, `cached = set(cache)`; entries with keys in
`cached − real` are deleted, a fresh proxy is inserted for every name in
`real − cached`, entries with keys in both are untouched. -/
def reconcile {π : Type} (cache : List (String × π)) (remote : List String)
    (factory : String → π) : List (String × π) :=
  (cache.filter (fun kv => decide (kv.1 ∈ remote))) ++
    ((remote.dedup.filter (fun n => (alookup n cache).isNone)).map
      (fun n => (n, factory n)))

/-- The result of the `collections` property: the Python dict
`{"user": ..., "system": ..., "all": user + system}`. -/
structure CollectionNames where
  user : List String
  system : List String
  all : List String
deriving Repr, DecidableEq

/-- The partitioning loop of the `collections` property: walks the server's
`collections` array appending each name to the system or the user list
according to the truthiness of its `isSystem` field. -/
def partitionCollections : List JVal → List String × List String
  | [] => ([], [])
  | c :: rest =>
    let pr := partitionCollections rest
    if (c.getObj "isSystem").truthy
    then (pr.1, (c.getObj "name").asString :: pr.2)
    else ((c.getObj "name").asString :: pr.1, pr.2)

namespace Database

/-- Source `Database.properties`: GET `/_api/database/current`, success 200. -/
def properties (w : World) : Except ArangoError JVal × World :=
  let p := issue w { method := "get", path := "/_api/database/current",
                     data := none, params := none }
  let res := p.1
  if res.status_code ≠ 200 then (.error (.databaseProperty res), p.2)
  else (.ok (uncamelify (res.obj.getObj "result")), p.2)

/-- The `options` local of `explain_query`: `allPlans` always,
`maxNumberOfPlans` and `optimizer.rules` only when supplied. -/
def explain_query_options (all_plans : Bool) (max_plans : Option Int)
    (optimizer_rules : Option (List String)) : List (String × JVal) :=
  [("allPlans", JVal.bool all_plans)]
    ++ (match max_plans with
        | some m => [("maxNumberOfPlans", JVal.num m)]
        | none => [])
    ++ (match optimizer_rules with
        | some rs => [("optimizer", JVal.obj [("rules", JVal.arr (rs.map JVal.str))])]
        | none => [])

/-- Source `Database.explain_query`: POST `/_api/explain`, success 200; returns the
single `plan` if the response has one, otherwise the `plans` list. -/
def explain_query (w : World) (query : String) (all_plans : Bool)
    (max_plans : Option Int) (optimizer_rules : Option (List String)) :
    Except ArangoError JVal × World :=
  let options : List (String × JVal) :=
    explain_query_options all_plans max_plans optimizer_rules
  let p := issue w { method := "post", path := "/_api/explain",
                     data := some (JVal.obj [("query", JVal.str query),
                                             ("options", JVal.obj options)]),
                     params := none }
  let res := p.1
  if res.status_code ≠ 200 then (.error (.queryExplain res), p.2)
  else if res.obj.hasKey "plan" then (.ok (uncamelify (res.obj.getObj "plan")), p.2)
  else (.ok (uncamelify (res.obj.getObj "plans")), p.2)

/-- Source `Database.validate_query`: POST `/_api/query`, success 200, returns nothing. -/
def validate_query (w : World) (query : String) : Except ArangoError Unit × World :=
  let p := issue w { method := "post", path := "/_api/query",
                     data := some (JVal.obj [("query", JVal.str query)]),
                     params := none }
  let res := p.1
  if res.status_code ≠ 200 then (.error (.queryValidate res), p.2)
  else (.ok (), p.2)

/-- The `options` local of `execute_query`: `fullCount`, `maxNumberOfPlans`
and `optimizer.rules`, each only when supplied. -/
def execute_query_options (full_count : Option Bool) (max_plans : Option Int)
    (optimizer_rules : Option (List String)) : List (String × JVal) :=
  (match full_count with
   | some b => [("fullCount", JVal.bool b)]
   | none => [])
    ++ (match max_plans with
        | some m => [("maxNumberOfPlans", JVal.num m)]
        | none => [])
    ++ (match optimizer_rules with
        | some rs => [("optimizer", JVal.obj [("rules", JVal.arr (rs.map JVal.str))])]
        | none => [])

/-- The `data` local of `execute_query`: `query` and `count` always,
`batchSize` / `ttl` / `bindVars` only when supplied, and the `options` object
only when the options dict is non-empty (Python `if options:`). -/
def execute_query_data (query : String) (count : Bool) (batch_size : Option Int)
    (ttl : Option Int) (bind_vars : Option (List (String × JVal)))
    (full_count : Option Bool) (max_plans : Option Int)
    (optimizer_rules : Option (List String)) : List (String × JVal) :=
  [("query", JVal.str query), ("count", JVal.bool count)]
    ++ (match batch_size with
        | some b => [("batchSize", JVal.num b)]
        | none => [])
    ++ (match ttl with
        | some t => [("ttl", JVal.num t)]
        | none => [])
    ++ (match bind_vars with
        | some bv => [("bindVars", JVal.obj bv)]
        | none => [])
    ++ (if (execute_query_options full_count max_plans optimizer_rules).isEmpty
        then []
        else [("options",
               JVal.obj (execute_query_options full_count max_plans
                 optimizer_rules))])

/-- Source `Database.execute_query`: assembles the cursor-creation body, POSTs
`/_api/cursor`, success 201, hands the response to the cursor factory. -/
def execute_query (w : World) (query : String) (count : Bool)
    (batch_size : Option Int) (ttl : Option Int)
    (bind_vars : Option (List (String × JVal))) (full_count : Option Bool)
    (max_plans : Option Int) (optimizer_rules : Option (List String)) :
    Except ArangoError Cursor × World :=
  let data : List (String × JVal) :=
    execute_query_data query count batch_size ttl bind_vars full_count
      max_plans optimizer_rules
  let p := issue w { method := "post", path := "/_api/cursor",
                     data := some (JVal.obj data), params := none }
  let res := p.1
  if res.status_code ≠ 201 then (.error (.queryExecute res), p.2)
  else
    let c := mkCursor p.2 res
    (.ok c.1, c.2)

/-- The `Database.collections` property: GET `/_api/collection`, success 200;
partitions the reported collections into user and system names. -/
def collections (w : World) : Except ArangoError CollectionNames × World :=
  let p := issue w { method := "get", path := "/_api/collection",
                     data := none, params := none }
  let res := p.1
  if res.status_code ≠ 200 then (.error (.collectionList res), p.2)
  else
    let pr := partitionCollections ((res.obj.getObj "collections").asArr)
    (.ok { user := pr.1, system := pr.2, all := pr.1 ++ pr.2 }, p.2)

/-- Source `Database._update_collection_cache`: fetch the authoritative list via the
`collections` property and reconcile the collection cache against its `all`
entry, constructing fresh `Collection` proxies for new names. -/
def _update_collection_cache (w : World) : Except ArangoError Unit × World :=
  match Database.collections w with
  | (.error e, w1) => (.error e, w1)
  | (.ok cols, w1) =>
    (.ok (),
     { w1 with collection_cache :=
         reconcile w1.collection_cache cols.all (fun n => { name := n }) })

/-- Source `Database.collection`: `TypeError` on a non-string name; cached proxy if
present; otherwise one reconciliation pass, then `CollectionNotFoundError` if
the name is still absent. -/
def collection (w : World) (name : PyVal) : Except ArangoError Collection × World :=
  match name with
  | PyVal.str s =>
    (match alookup s w.collection_cache with
     | some c => (.ok c, w)
     | none =>
       match Database._update_collection_cache w with
       | (.error e, w1) => (.error e, w1)
       | (.ok _, w1) =>
         match alookup s w1.collection_cache with
         | some c => (.ok c, w1)
         | none => (.error (.collectionNotFound s), w1))
  | _ => (.error (.typeError "Expecting a str."), w)

/-- The trailing two statements of `add_collection` after a successful create:
`self._update_collection_cache(); return self.collection(name)`. -/
def add_collection_finish (w1 : World) (name : String) :
    Except ArangoError Collection × World :=
  match Database._update_collection_cache w1 with
  | (.error e, w2) => (.error e, w2)
  | (.ok _, w2) => Database.collection w2 (PyVal.str name)

/-- Source `Database.add_collection`: assembles the creation body (nested
`keyOptions`, optional sizing/sharding fields), POSTs `/_api/collection`,
success 200, reconciles the cache and returns the now-cached proxy. -/
def add_collection (w : World) (name : String) (wait_for_sync : Bool)
    (do_compact : Bool) (journal_size : Option Int) (is_system : Bool)
    (is_volatile : Bool) (key_generator_type : String) (allow_user_keys : Bool)
    (key_increment : Option Int) (key_offset : Option Int) (is_edge : Bool)
    (number_of_shards : Option Int) (shard_keys : Option (List String)) :
    Except ArangoError Collection × World :=
  let key_options : List (String × JVal) :=
    [("type", JVal.str key_generator_type),
     ("allowUserKeys", JVal.bool allow_user_keys)]
      ++ (match key_increment with
          | some i => [("increment", JVal.num i)]
          | none => [])
      ++ (match key_offset with
          | some o => [("offset", JVal.num o)]
          | none => [])
  let data : List (String × JVal) :=
    [("name", JVal.str name),
     ("waitForSync", JVal.bool wait_for_sync),
     ("doCompact", JVal.bool do_compact),
     ("isSystem", JVal.bool is_system),
     ("isVolatile", JVal.bool is_volatile),
     ("type", JVal.num (if is_edge then 3 else 2)),
     ("keyOptions", JVal.obj key_options)]
      ++ (match journal_size with
          | some j => [("journalSize", JVal.num j)]
          | none => [])
      ++ (match number_of_shards with
          | some k => [("numberOfShards", JVal.num k)]
          | none => [])
      ++ (match shard_keys with
          | some ks => [("shardKeys", JVal.arr (ks.map JVal.str))]
          | none => [])
  let p := issue w { method := "post", path := "/_api/collection",
                     data := some (JVal.obj data), params := none }
  let res := p.1
  if res.status_code ≠ 200 then (.error (.collectionAdd res), p.2)
  else Database.add_collection_finish p.2 name

/-- Source `Database.remove_collection`: DELETE `/_api/collection/{name}`, success
200, then reconcile the collection cache. -/
def remove_collection (w : World) (name : String) : Except ArangoError Unit × World :=
  let p := issue w { method := "delete", path := "/_api/collection/" ++ name,
                     data := none, params := none }
  let res := p.1
  if res.status_code ≠ 200 then (.error (.collectionRemove res), p.2)
  else Database._update_collection_cache p.2

/-- Source `Database.rename_collection`: PUT `/_api/collection/{name}/rename` with the
new name, success 200, then reconcile the collection cache. -/
def rename_collection (w : World) (name : String) (new_name : String) :
    Except ArangoError Unit × World :=
  let p := issue w { method := "put",
                     path := "/_api/collection/" ++ name ++ "/rename",
                     data := some (JVal.obj [("name", JVal.str new_name)]),
                     params := none }
  let res := p.1
  if res.status_code ≠ 200 then (.error (.collectionRename res), p.2)
  else Database._update_collection_cache p.2

/-- The `Database.aql_functions` property: GET `/_api/aqlfunction`, success
200; returns the name → code mapping. -/
def aql_functions (w : World) : Except ArangoError (List (String × String)) × World :=
  let p := issue w { method := "get", path := "/_api/aqlfunction",
                     data := none, params := none }
  let res := p.1
  if res.status_code ≠ 200 then (.error (.aqlFunctionList res), p.2)
  else
    (.ok ((res.obj.asArr).map
      (fun f => ((f.getObj "name").asString, (f.getObj "code").asString))), p.2)

/-- Source `Database.add_aql_function`: POST `/_api/aqlfunction`, success 200 or 201,
then return the freshly re-fetched registry. -/
def add_aql_function (w : World) (name : String) (code : String) :
    Except ArangoError (List (String × String)) × World :=
  let p := issue w { method := "post", path := "/_api/aqlfunction",
                     data := some (JVal.obj [("name", JVal.str name),
                                             ("code", JVal.str code)]),
                     params := none }
  let res := p.1
  if ¬(res.status_code = 200 ∨ res.status_code = 201) then
    (.error (.aqlFunctionAdd res), p.2)
  else Database.aql_functions p.2

/-- Source `Database.remove_aql_function`: DELETE `/_api/aqlfunction/{name}` with the
`group` query parameter only when supplied, success 200, then return the
freshly re-fetched registry. -/
def remove_aql_function (w : World) (name : String) (group : Option Bool) :
    Except ArangoError (List (String × String)) × World :=
  let p := issue w { method := "delete", path := "/_api/aqlfunction/" ++ name,
                     data := none,
                     params := some (JVal.obj
                       (match group with
                        | some g => [("group", JVal.bool g)]
                        | none => [])) }
  let res := p.1
  if res.status_code ≠ 200 then (.error (.aqlFunctionRemove res), p.2)
  else Database.aql_functions p.2

/-- Source `Database.execute_transaction`: POST `/_api/transaction` with the action
script, the read/write collection declarations (each only when supplied), and
the `waitForSync` / `lockTimeout` query parameters (both always present);
success 200, returns the server's `result` value. -/
def execute_transaction (w : World) (action : String)
    (read_collections : Option JVal) (write_collections : Option JVal)
    (wait_for_sync : Bool) (lock_timeout : Option Int) :
    Except ArangoError JVal × World :=
  let colls : List (String × JVal) :=
    (match read_collections with
     | some rc => [("read", rc)]
     | none => [])
      ++ (match write_collections with
          | some wc => [("write", wc)]
          | none => [])
  let data : List (String × JVal) :=
    [("collections", JVal.obj colls), ("action", JVal.str action)]
  let params : List (String × JVal) :=
    [("waitForSync", JVal.bool wait_for_sync),
     ("lockTimeout", optNum lock_timeout)]
  let p := issue w { method := "post", path := "/_api/transaction",
                     data := some (JVal.obj data),
                     params := some (JVal.obj params) }
  let res := p.1
  if res.status_code ≠ 200 then (.error (.transactionExecute res), p.2)
  else (.ok (res.obj.getObj "result"), p.2)

/-- The `Database.graphs` property: GET `/_api/gharial`, success 200 or 202;
returns the `_key` of every reported graph. -/
def graphs (w : World) : Except ArangoError (List String) × World :=
  let p := issue w { method := "get", path := "/_api/gharial",
                     data := none, params := none }
  let res := p.1
  if ¬(res.status_code = 200 ∨ res.status_code = 202) then
    (.error (.graphList res), p.2)
  else
    (.ok (((res.obj.getObj "graphs").asArr).map
      (fun g => (g.getObj "_key").asString)), p.2)

/-- Source `Database._update_graph_cache`: fetch the authoritative graph list via the
`graphs` property and reconcile the graph cache against it, constructing fresh
`Graph` proxies for new names. -/
def _update_graph_cache (w : World) : Except ArangoError Unit × World :=
  match Database.graphs w with
  | (.error e, w1) => (.error e, w1)
  | (.ok names, w1) =>
    (.ok (),
     { w1 with graph_cache :=
         reconcile w1.graph_cache names (fun n => { name := n }) })

/-- Source `Database.graph`: `TypeError` on a non-string name; cached proxy if
present; otherwise one reconciliation pass, then `GraphNotFoundError` if the
name is still absent. -/
def graph (w : World) (name : PyVal) : Except ArangoError Graph × World :=
  match name with
  | PyVal.str s =>
    (match alookup s w.graph_cache with
     | some g => (.ok g, w)
     | none =>
       match Database._update_graph_cache w with
       | (.error e, w1) => (.error e, w1)
       | (.ok _, w1) =>
         match alookup s w1.graph_cache with
         | some g => (.ok g, w1)
         | none => (.error (.graphNotFound s), w1))
  | _ => (.error (.typeError "Expecting a str."), w)

/-- The trailing two statements of `add_graph` after a successful create:
`self._update_graph_cache(); return self.graph(name)`. -/
def add_graph_finish (w1 : World) (name : String) :
    Except ArangoError Graph × World :=
  match Database._update_graph_cache w1 with
  | (.error e, w2) => (.error e, w2)
  | (.ok _, w2) => Database.graph w2 (PyVal.str name)

/-- Source `Database.add_graph`: POST `/_api/gharial` with the name and the optional
edge definitions / orphan collections, success 201, reconcile the graph cache
and return the now-cached proxy. -/
def add_graph (w : World) (name : String) (edge_definitions : Option JVal)
    (orphan_collections : Option JVal) : Except ArangoError Graph × World :=
  let data : List (String × JVal) :=
    [("name", JVal.str name)]
      ++ (match edge_definitions with
          | some ed => [("edgeDefinitions", ed)]
          | none => [])
      ++ (match orphan_collections with
          | some oc => [("orphanCollections", oc)]
          | none => [])
  let p := issue w { method := "post", path := "/_api/gharial",
                     data := some (JVal.obj data), params := none }
  let res := p.1
  if res.status_code ≠ 201 then (.error (.graphAdd res), p.2)
  else Database.add_graph_finish p.2 name

/-- Source `Database.remove_graph`: DELETE `/_api/gharial/{name}`, success 200, then
reconcile the graph cache. -/
def remove_graph (w : World) (name : String) : Except ArangoError Unit × World :=
  let p := issue w { method := "delete", path := "/_api/gharial/" ++ name,
                     data := none, params := none }
  let res := p.1
  if res.status_code ≠ 200 then (.error (.graphRemove res), p.2)
  else Database._update_graph_cache p.2

end Database

/-! ### Association-list and reconciliation lemmas -/

/-- First-of-two options: the value of `l1 ++ l2` lookups. -/
def ofirst {π : Type} : Option π → Option π → Option π
  | some v, _ => some v
  | none, b => b

theorem alookup_append {π : Type} (s : String) (l1 l2 : List (String × π)) :
    alookup s (l1 ++ l2) = ofirst (alookup s l1) (alookup s l2) := by
  induction l1 with
  | nil => simp [alookup, ofirst]
  | cons kv rest ih =>
    obtain ⟨k, v⟩ := kv
    by_cases h : k = s
    · simp [alookup, h, ofirst]
    · simp [alookup, h, ih]

theorem alookup_filter_mem {π : Type} (s : String) (l : List (String × π))
    (remote : List String) :
    alookup s (l.filter (fun kv => decide (kv.1 ∈ remote))) =
      if s ∈ remote then alookup s l else none := by
  induction l with
  | nil => simp [alookup]
  | cons kv rest ih =>
    obtain ⟨k, v⟩ := kv
    by_cases hk : k ∈ remote
    · by_cases hs : k = s
      · subst hs
        simp [alookup, hk]
      · simp [alookup, List.filter, hk, hs, ih]
    · by_cases hs : k = s
      · subst hs
        simp [alookup, List.filter, hk, ih]
      · simp [alookup, List.filter, hk, hs, ih]

theorem alookup_map_factory {π : Type} (s : String) (names : List String)
    (f : String → π) :
    alookup s (names.map (fun n => (n, f n))) =
      if s ∈ names then some (f s) else none := by
  induction names with
  | nil => simp [alookup]
  | cons n rest ih =>
    by_cases h : n = s
    · subst h
      simp [alookup]
    · simp [alookup, h, ih, Ne.symm h]

theorem alookup_eq_some_mem {π : Type} {s : String} {l : List (String × π)}
    {v : π} (h : alookup s l = some v) : (s, v) ∈ l := by
  induction l with
  | nil => simp [alookup] at h
  | cons kv rest ih =>
    obtain ⟨k, u⟩ := kv
    by_cases hk : k = s
    · subst hk
      simp [alookup] at h
      simp [h]
    · simp [alookup, hk] at h
      simp [ih h]

theorem mem_akeys_iff {π : Type} (s : String) (l : List (String × π)) :
    s ∈ akeys l ↔ (alookup s l).isSome := by
  induction l with
  | nil => simp [akeys, alookup]
  | cons kv rest ih =>
    obtain ⟨k, v⟩ := kv
    by_cases hk : k = s
    · subst hk
      simp [akeys, alookup]
    · rw [show akeys ((k, v) :: rest) = k :: akeys rest from rfl, List.mem_cons,
        show alookup s ((k, v) :: rest) = alookup s rest from by simp [alookup, hk],
        ← ih]
      simp [Ne.symm hk]

theorem alookup_reconcile {π : Type} (s : String) (cache : List (String × π))
    (remote : List String) (f : String → π) :
    alookup s (reconcile cache remote f) =
      if s ∈ remote then ofirst (alookup s cache) (some (f s)) else none := by
  unfold reconcile
  rw [alookup_append, alookup_filter_mem, alookup_map_factory]
  by_cases hs : s ∈ remote
  · cases hv : alookup s cache with
    | some v => simp [hs, hv, ofirst]
    | none =>
      have hmem : s ∈ remote.dedup.filter (fun n => (alookup n cache).isNone) := by
        rw [List.mem_filter, List.mem_dedup]
        simp [hs, hv]
      simp [hs, hv, ofirst, hmem]
  · have hmem : s ∉ remote.dedup.filter (fun n => (alookup n cache).isNone) := by
      rw [List.mem_filter, List.mem_dedup]
      simp [hs]
    simp [hs, ofirst, hmem]

theorem mem_akeys_reconcile {π : Type} (s : String) (cache : List (String × π))
    (remote : List String) (f : String → π) :
    s ∈ akeys (reconcile cache remote f) ↔ s ∈ remote := by
  rw [mem_akeys_iff, alookup_reconcile]
  by_cases hs : s ∈ remote
  · cases hv : alookup s cache with
    | some v => simp [hs, hv, ofirst]
    | none => simp [hs, hv, ofirst]
  · simp [hs]

/-! ### Derived views of list responses -/

/-- The authoritative collection-name list (`self.collections["all"]`) carried
by a collection-list response: user names first, then system names, exactly as
the `collections` property assembles its `all` entry. -/
def collectionAllOf (r : Response) : List String :=
  (partitionCollections ((r.obj.getObj "collections").asArr)).1 ++
    (partitionCollections ((r.obj.getObj "collections").asArr)).2

/-- The authoritative graph-name list (`self.graphs`) carried by a graph-list
response: the `_key` of every entry of its `graphs` array. -/
def graphKeysOf (r : Response) : List String :=
  ((r.obj.getObj "graphs").asArr).map (fun g => (g.getObj "_key").asString)

/-- Lemma: `_update_collection_cache` when the list fetch succeeds: one GET issued,
the collection cache reconciled against the reported name list. -/
theorem update_collection_cache_ok (w : World)
    (h : (w.api w.count).status_code = 200) :
    Database._update_collection_cache w =
      (.ok (),
       { w with count := w.count + 1,
                trace := w.trace ++ [{ method := "get", path := "/_api/collection",
                                       data := none, params := none }],
                collection_cache :=
                  reconcile w.collection_cache (collectionAllOf (w.api w.count))
                    (fun n => { name := n }) }) := by
  simp [Database._update_collection_cache, Database.collections, issue, h,
    collectionAllOf]

/-- Lemma: `_update_collection_cache` when the list fetch fails: one GET issued, the
`CollectionListError` raised, both caches untouched. -/
theorem update_collection_cache_err (w : World)
    (h : (w.api w.count).status_code ≠ 200) :
    Database._update_collection_cache w =
      (.error (.collectionList (w.api w.count)),
       { w with count := w.count + 1,
                trace := w.trace ++ [{ method := "get", path := "/_api/collection",
                                       data := none, params := none }] }) := by
  simp [Database._update_collection_cache, Database.collections, issue, h]

/-- Lemma: `_update_graph_cache` when the list fetch succeeds: one GET issued, the
graph cache reconciled against the reported `_key` list. -/
theorem update_graph_cache_ok (w : World)
    (h : (w.api w.count).status_code = 200 ∨ (w.api w.count).status_code = 202) :
    Database._update_graph_cache w =
      (.ok (),
       { w with count := w.count + 1,
                trace := w.trace ++ [{ method := "get", path := "/_api/gharial",
                                       data := none, params := none }],
                graph_cache :=
                  reconcile w.graph_cache (graphKeysOf (w.api w.count))
                    (fun n => { name := n }) }) := by
  simp [Database._update_graph_cache, Database.graphs, issue, h, graphKeysOf]

/-- Lemma: `_update_graph_cache` when the list fetch fails: one GET issued, the
`GraphListError` raised, both caches untouched. -/
theorem update_graph_cache_err (w : World)
    (h : ¬((w.api w.count).status_code = 200 ∨ (w.api w.count).status_code = 202)) :
    Database._update_graph_cache w =
      (.error (.graphList (w.api w.count)),
       { w with count := w.count + 1,
                trace := w.trace ++ [{ method := "get", path := "/_api/gharial",
                                       data := none, params := none }] }) := by
  simp [Database._update_graph_cache, Database.graphs, issue, h]

/-! ### C3 -/

/-- C3: one reconciliation pass removes exactly the cached entries whose key is
not in the remote list, inserts a freshly constructed proxy (via the factory)
for exactly the remote names not already cached, and leaves every entry whose
key is in both sets bound to the same proxy as before; afterwards the cached
keys are exactly the remote names. -/
theorem reconcile_exact {π : Type} (cache : List (String × π))
    (remote : List String) (f : String → π) :
    (∀ s, s ∈ akeys cache → s ∉ remote →
       alookup s (reconcile cache remote f) = none) ∧
    (∀ s, s ∈ remote → s ∉ akeys cache →
       alookup s (reconcile cache remote f) = some (f s)) ∧
    (∀ s, s ∈ remote → s ∈ akeys cache →
       alookup s (reconcile cache remote f) = alookup s cache) ∧
    (∀ s, s ∈ akeys (reconcile cache remote f) ↔ s ∈ remote) := by
  refine ⟨?_, ?_, ?_, fun s => mem_akeys_reconcile s cache remote f⟩
  · intro s _ hr
    rw [alookup_reconcile]
    simp [hr]
  · intro s hr hc
    rw [mem_akeys_iff] at hc
    rw [alookup_reconcile]
    cases hv : alookup s cache with
    | some v => simp [hv] at hc
    | none => simp [hr, hv, ofirst]
  · intro s hr hc
    rw [mem_akeys_iff] at hc
    rw [alookup_reconcile]
    cases hv : alookup s cache with
    | some v => simp [hr, hv, ofirst]
    | none => simp [hv] at hc

/-- Witness for C3 at a concrete cache, remote list and factory. -/
theorem reconcile_exact_witness :
    alookup "a" (reconcile [("a", 0), ("b", 1)] ["b", "c"] (fun _ => 2)) = none ∧
    alookup "c" (reconcile [("a", 0), ("b", 1)] ["b", "c"] (fun _ => 2)) = some 2 ∧
    alookup "b" (reconcile [("a", 0), ("b", 1)] ["b", "c"] (fun _ => 2)) =
      alookup "b" [("a", 0), ("b", 1)] :=
  ⟨(reconcile_exact [("a", 0), ("b", 1)] ["b", "c"] (fun _ => 2)).1 "a"
      (by decide) (by decide),
   (reconcile_exact [("a", 0), ("b", 1)] ["b", "c"] (fun _ => 2)).2.1 "c"
      (by decide) (by decide),
   (reconcile_exact [("a", 0), ("b", 1)] ["b", "c"] (fun _ => 2)).2.2.1 "b"
      (by decide) (by decide)⟩

/-! ### Concrete worlds for witnesses -/

/-- A collection-list body reporting one user and one system collection. -/
def colListBody : JVal :=
  JVal.obj [("collections", JVal.arr
    [JVal.obj [("name", JVal.str "users"), ("isSystem", JVal.bool false)],
     JVal.obj [("name", JVal.str "_graphs"), ("isSystem", JVal.bool true)]])]

/-- A graph-list body reporting one graph, `social`. -/
def graphListBody : JVal :=
  JVal.obj [("graphs", JVal.arr [JVal.obj [("_key", JVal.str "social")]])]

/-- A fresh facade whose server always answers 200 with `colListBody`. -/
def wA : World :=
  { api := fun _ => { status_code := 200, obj := colListBody },
    count := 0, trace := [], collection_cache := [], graph_cache := [],
    cursors_made := 0 }

/-- A fresh facade whose server always answers 500 with an empty body. -/
def wBad : World :=
  { api := fun _ => { status_code := 500, obj := JVal.null },
    count := 0, trace := [], collection_cache := [("users", { name := "users" })],
    graph_cache := [("social", { name := "social" })], cursors_made := 0 }

/-! ### C1 -/

/-- C1: every mutating collection/graph operation whose own request succeeds
runs a full cache reconciliation before returning; when the reconciliation's
list fetch succeeds (and, for the add operations, the created name is in the
reported list, so that the trailing lookup is served from the cache), the keys
of the corresponding cache afterwards are exactly the names the server
reported during that reconciliation. -/
theorem mutating_ops_reconcile (w : World) :
    (∀ name wfs dc js isys ivol kgt auk ki ko ie ns sk,
       (w.api w.count).status_code = 200 →
       (w.api (w.count + 1)).status_code = 200 →
       name ∈ collectionAllOf (w.api (w.count + 1)) →
       ∀ s, s ∈ akeys (Database.add_collection w name wfs dc js isys ivol kgt
                        auk ki ko ie ns sk).2.collection_cache ↔
         s ∈ collectionAllOf (w.api (w.count + 1))) ∧
    (∀ name,
       (w.api w.count).status_code = 200 →
       (w.api (w.count + 1)).status_code = 200 →
       ∀ s, s ∈ akeys (Database.remove_collection w name).2.collection_cache ↔
         s ∈ collectionAllOf (w.api (w.count + 1))) ∧
    (∀ name new_name,
       (w.api w.count).status_code = 200 →
       (w.api (w.count + 1)).status_code = 200 →
       ∀ s, s ∈ akeys (Database.rename_collection w name new_name).2.collection_cache ↔
         s ∈ collectionAllOf (w.api (w.count + 1))) ∧
    (∀ name ed oc,
       (w.api w.count).status_code = 201 →
       ((w.api (w.count + 1)).status_code = 200 ∨
        (w.api (w.count + 1)).status_code = 202) →
       name ∈ graphKeysOf (w.api (w.count + 1)) →
       ∀ s, s ∈ akeys (Database.add_graph w name ed oc).2.graph_cache ↔
         s ∈ graphKeysOf (w.api (w.count + 1))) ∧
    (∀ name,
       (w.api w.count).status_code = 200 →
       ((w.api (w.count + 1)).status_code = 200 ∨
        (w.api (w.count + 1)).status_code = 202) →
       ∀ s, s ∈ akeys (Database.remove_graph w name).2.graph_cache ↔
         s ∈ graphKeysOf (w.api (w.count + 1))) := by
  refine ⟨?_, ?_, ?_, ?_, ?_⟩
  · intro name wfs dc js isys ivol kgt auk ki ko ie ns sk h0 h1 hname s
    simp only [Database.add_collection, issue, h0]
    rw [if_neg (by simp [h0])]
    simp only [Database.add_collection_finish]
    rw [update_collection_cache_ok _ (by simpa using h1)]
    simp only [Database.collection]
    have hmem : name ∈ akeys (reconcile w.collection_cache
        (collectionAllOf (w.api (w.count + 1))) (fun n => { name := n })) := by
      rw [mem_akeys_reconcile]
      exact hname
    rw [mem_akeys_iff] at hmem
    cases hv : alookup name (reconcile w.collection_cache
        (collectionAllOf (w.api (w.count + 1))) (fun n => { name := n })) with
    | none => simp [hv] at hmem
    | some c =>
      simp only [hv]
      rw [mem_akeys_reconcile]
  · intro name h0 h1 s
    simp only [Database.remove_collection, issue]
    rw [if_neg (by simp [h0])]
    rw [update_collection_cache_ok _ (by simpa using h1)]
    rw [mem_akeys_reconcile]
  · intro name new_name h0 h1 s
    simp only [Database.rename_collection, issue]
    rw [if_neg (by simp [h0])]
    rw [update_collection_cache_ok _ (by simpa using h1)]
    rw [mem_akeys_reconcile]
  · intro name ed oc h0 h1 hname s
    simp only [Database.add_graph, issue]
    rw [if_neg (by simp [h0])]
    simp only [Database.add_graph_finish]
    rw [update_graph_cache_ok _ (by simpa using h1)]
    simp only [Database.graph]
    have hmem : name ∈ akeys (reconcile w.graph_cache
        (graphKeysOf (w.api (w.count + 1))) (fun n => { name := n })) := by
      rw [mem_akeys_reconcile]
      exact hname
    rw [mem_akeys_iff] at hmem
    cases hv : alookup name (reconcile w.graph_cache
        (graphKeysOf (w.api (w.count + 1))) (fun n => { name := n })) with
    | none => simp [hv] at hmem
    | some g =>
      simp only [hv]
      rw [mem_akeys_reconcile]
  · intro name h0 h1 s
    simp only [Database.remove_graph, issue]
    rw [if_neg (by simp [h0])]
    rw [update_graph_cache_ok _ (by simpa using h1)]
    rw [mem_akeys_reconcile]

/-- Witness for C1: removing a collection against a server whose list reports
`users` and `_graphs` leaves exactly those keys in the cache. -/
theorem mutating_ops_reconcile_witness :
    "users" ∈ akeys (Database.remove_collection wA "old").2.collection_cache :=
  (((mutating_ops_reconcile wA).2.1 "old" (by decide) (by decide)) "users").mpr
    (by decide)

/-! ### C10 -/

/-- C10: when the server answers a mutating collection/graph operation with a
non-success status, the operation raises its typed error after issuing exactly
one request — before any cache reconciliation — and both caches are exactly as
they were before the call. -/
theorem mutating_ops_error_atomic (w : World) :
    (∀ name wfs dc js isys ivol kgt auk ki ko ie ns sk,
       (w.api w.count).status_code ≠ 200 →
       (Database.add_collection w name wfs dc js isys ivol kgt auk ki ko ie ns
           sk).1 = .error (.collectionAdd (w.api w.count)) ∧
       (Database.add_collection w name wfs dc js isys ivol kgt auk ki ko ie ns
           sk).2.collection_cache = w.collection_cache ∧
       (Database.add_collection w name wfs dc js isys ivol kgt auk ki ko ie ns
           sk).2.graph_cache = w.graph_cache ∧
       (Database.add_collection w name wfs dc js isys ivol kgt auk ki ko ie ns
           sk).2.count = w.count + 1) ∧
    (∀ name,
       (w.api w.count).status_code ≠ 200 →
       (Database.remove_collection w name).1 =
         .error (.collectionRemove (w.api w.count)) ∧
       (Database.remove_collection w name).2.collection_cache = w.collection_cache ∧
       (Database.remove_collection w name).2.graph_cache = w.graph_cache ∧
       (Database.remove_collection w name).2.count = w.count + 1) ∧
    (∀ name new_name,
       (w.api w.count).status_code ≠ 200 →
       (Database.rename_collection w name new_name).1 =
         .error (.collectionRename (w.api w.count)) ∧
       (Database.rename_collection w name new_name).2.collection_cache =
         w.collection_cache ∧
       (Database.rename_collection w name new_name).2.graph_cache = w.graph_cache ∧
       (Database.rename_collection w name new_name).2.count = w.count + 1) ∧
    (∀ name ed oc,
       (w.api w.count).status_code ≠ 201 →
       (Database.add_graph w name ed oc).1 = .error (.graphAdd (w.api w.count)) ∧
       (Database.add_graph w name ed oc).2.collection_cache = w.collection_cache ∧
       (Database.add_graph w name ed oc).2.graph_cache = w.graph_cache ∧
       (Database.add_graph w name ed oc).2.count = w.count + 1) ∧
    (∀ name,
       (w.api w.count).status_code ≠ 200 →
       (Database.remove_graph w name).1 = .error (.graphRemove (w.api w.count)) ∧
       (Database.remove_graph w name).2.collection_cache = w.collection_cache ∧
       (Database.remove_graph w name).2.graph_cache = w.graph_cache ∧
       (Database.remove_graph w name).2.count = w.count + 1) := by
  refine ⟨?_, ?_, ?_, ?_, ?_⟩
  · intro name wfs dc js isys ivol kgt auk ki ko ie ns sk h0
    simp [Database.add_collection, issue, if_pos h0]
  · intro name h0
    simp [Database.remove_collection, issue, if_pos h0]
  · intro name new_name h0
    simp [Database.rename_collection, issue, if_pos h0]
  · intro name ed oc h0
    simp [Database.add_graph, issue, if_pos h0]
  · intro name h0
    simp [Database.remove_graph, issue, if_pos h0]

/-- Witness for C10: a 500 answer to `remove_collection` leaves both caches
of `wBad` untouched and raises `CollectionRemoveError`. -/
theorem mutating_ops_error_atomic_witness :
    (Database.remove_collection wBad "users").1 =
      .error (.collectionRemove (wBad.api wBad.count)) ∧
    (Database.remove_collection wBad "users").2.collection_cache =
      wBad.collection_cache ∧
    (Database.remove_collection wBad "users").2.graph_cache = wBad.graph_cache ∧
    (Database.remove_collection wBad "users").2.count = wBad.count + 1 :=
  (mutating_ops_error_atomic wBad).2.1 "users" (by decide)

/-! ### C9 -/

/-- C9: a non-string argument to `collection`/`graph` raises the
invalid-argument (`TypeError`) kind, with no request issued and both caches
(and the whole facade state) unchanged. -/
theorem nonstring_name_rejected (w : World) (v : PyVal)
    (h : ∀ s, v ≠ PyVal.str s) :
    Database.collection w v = (.error (.typeError "Expecting a str."), w) ∧
    Database.graph w v = (.error (.typeError "Expecting a str."), w) := by
  cases v with
  | str s => exact absurd rfl (h s)
  | int n => exact ⟨rfl, rfl⟩
  | noneVal => exact ⟨rfl, rfl⟩

/-- Witness for C9: `collection(42)` and `graph(42)` fail locally. -/
theorem nonstring_name_rejected_witness :
    Database.collection wA (PyVal.int 42) =
      (.error (.typeError "Expecting a str."), wA) ∧
    Database.graph wA (PyVal.int 42) =
      (.error (.typeError "Expecting a str."), wA) :=
  nonstring_name_rejected wA (PyVal.int 42) (fun _ h => PyVal.noConfusion h)

/-! ### C4 -/

/-- A collection-list body whose only collection is named `""`. -/
def emptyNameListBody : JVal :=
  JVal.obj [("collections", JVal.arr
    [JVal.obj [("name", JVal.str ""), ("isSystem", JVal.bool false)]])]

/-- A fresh facade whose server reports a single collection named `""`. -/
def wE : World :=
  { api := fun _ => { status_code := 200, obj := emptyNameListBody },
    count := 0, trace := [], collection_cache := [], graph_cache := [],
    cursors_made := 0 }

/-- C4 counterexample: the claim's cache-hit branch requires a *non-empty*
name, so for the empty name its "otherwise" branch demands exactly one
reconciliation pass per call.  But the code only tests `isinstance(name, str)`
and cache membership: a collection named `""` (which the server can report —
the first call below caches it through a genuine reconciliation) is returned
straight from the cache on the second call, with the request counter stuck at
1, i.e. no reconciliation pass runs. -/
theorem lookup_counterexample :
    (Database.collection wE (PyVal.str "")).2.count = 1 ∧
    (Database.collection (Database.collection wE (PyVal.str "")).2
        (PyVal.str "")).1 = .ok { name := "" } ∧
    (Database.collection (Database.collection wE (PyVal.str "")).2
        (PyVal.str "")).2.count = 1 :=
  ⟨rfl, rfl, rfl⟩

/-- C4 as amended: for a *string* argument `s` (the non-string case raises the
invalid-argument error, see C9): a cache hit — empty or not — returns the
cached proxy with the facade state (hence the network) untouched; a cache miss
issues exactly one reconciliation request, after which the call returns a
proxy bound to `s` if the server's list contains `s` and raises the not-found
error otherwise; and a repeated lookup of a name just returned yields the
identical proxy with no further state change.  Same for graphs. -/
theorem lookup_cache_behavior (w : World) (s : String) :
    (∀ c, alookup s w.collection_cache = some c →
       Database.collection w (PyVal.str s) = (.ok c, w)) ∧
    (alookup s w.collection_cache = none →
       (Database.collection w (PyVal.str s)).2.count = w.count + 1) ∧
    (alookup s w.collection_cache = none →
       (w.api w.count).status_code = 200 →
       s ∈ collectionAllOf (w.api w.count) →
       (Database.collection w (PyVal.str s)).1 = .ok { name := s }) ∧
    (alookup s w.collection_cache = none →
       (w.api w.count).status_code = 200 →
       s ∉ collectionAllOf (w.api w.count) →
       (Database.collection w (PyVal.str s)).1 =
         .error (.collectionNotFound s)) ∧
    (∀ c w', Database.collection w (PyVal.str s) = (.ok c, w') →
       Database.collection w' (PyVal.str s) = (.ok c, w')) ∧
    (∀ g, alookup s w.graph_cache = some g →
       Database.graph w (PyVal.str s) = (.ok g, w)) ∧
    (alookup s w.graph_cache = none →
       (Database.graph w (PyVal.str s)).2.count = w.count + 1) ∧
    (alookup s w.graph_cache = none →
       ((w.api w.count).status_code = 200 ∨ (w.api w.count).status_code = 202) →
       s ∈ graphKeysOf (w.api w.count) →
       (Database.graph w (PyVal.str s)).1 = .ok { name := s }) ∧
    (alookup s w.graph_cache = none →
       ((w.api w.count).status_code = 200 ∨ (w.api w.count).status_code = 202) →
       s ∉ graphKeysOf (w.api w.count) →
       (Database.graph w (PyVal.str s)).1 = .error (.graphNotFound s)) ∧
    (∀ g w', Database.graph w (PyVal.str s) = (.ok g, w') →
       Database.graph w' (PyVal.str s) = (.ok g, w')) := by
  refine ⟨?_, ?_, ?_, ?_, ?_, ?_, ?_, ?_, ?_, ?_⟩
  · intro c hv
    simp [Database.collection, hv]
  · intro hv
    simp only [Database.collection, hv]
    by_cases h : (w.api w.count).status_code = 200
    · rw [update_collection_cache_ok w h]
      cases hv2 : alookup s (reconcile w.collection_cache
          (collectionAllOf (w.api w.count)) (fun n => { name := n })) <;> simp [hv2]
    · rw [update_collection_cache_err w h]
  · intro hv h hm
    simp only [Database.collection, hv]
    rw [update_collection_cache_ok w h]
    have hl : alookup s (reconcile w.collection_cache
        (collectionAllOf (w.api w.count)) (fun n => { name := n })) =
        some { name := s } := by
      rw [alookup_reconcile]
      simp [hm, hv, ofirst]
    simp [hl]
  · intro hv h hm
    simp only [Database.collection, hv]
    rw [update_collection_cache_ok w h]
    have hl : alookup s (reconcile w.collection_cache
        (collectionAllOf (w.api w.count)) (fun n => { name := n })) = none := by
      rw [alookup_reconcile]
      simp [hm]
    simp [hl]
  · intro c w' hc
    cases hv : alookup s w.collection_cache with
    | some c0 =>
      have h1 : Database.collection w (PyVal.str s) = (.ok c0, w) := by
        simp [Database.collection, hv]
      rw [h1] at hc
      obtain ⟨hc1, hc2⟩ := Prod.mk.injEq .. ▸ hc
      obtain rfl : c0 = c := by injection hc1
      subst hc2
      simp [Database.collection, hv]
    | none =>
      simp only [Database.collection, hv] at hc
      rcases hq : Database._update_collection_cache w with ⟨q, w1⟩
      rw [hq] at hc
      cases q with
      | error e => simp at hc
      | ok u =>
        cases hv2 : alookup s w1.collection_cache with
        | none => simp [hv2] at hc
        | some c1 =>
          simp [hv2] at hc
          obtain ⟨rfl, rfl⟩ := hc
          simp [Database.collection, hv2]
  · intro g hv
    simp [Database.graph, hv]
  · intro hv
    simp only [Database.graph, hv]
    by_cases h : (w.api w.count).status_code = 200 ∨ (w.api w.count).status_code = 202
    · rw [update_graph_cache_ok w h]
      cases hv2 : alookup s (reconcile w.graph_cache
          (graphKeysOf (w.api w.count)) (fun n => { name := n })) <;> simp [hv2]
    · rw [update_graph_cache_err w h]
  · intro hv h hm
    simp only [Database.graph, hv]
    rw [update_graph_cache_ok w h]
    have hl : alookup s (reconcile w.graph_cache
        (graphKeysOf (w.api w.count)) (fun n => { name := n })) =
        some { name := s } := by
      rw [alookup_reconcile]
      simp [hm, hv, ofirst]
    simp [hl]
  · intro hv h hm
    simp only [Database.graph, hv]
    rw [update_graph_cache_ok w h]
    have hl : alookup s (reconcile w.graph_cache
        (graphKeysOf (w.api w.count)) (fun n => { name := n })) = none := by
      rw [alookup_reconcile]
      simp [hm]
    simp [hl]
  · intro g w' hg
    cases hv : alookup s w.graph_cache with
    | some g0 =>
      have h1 : Database.graph w (PyVal.str s) = (.ok g0, w) := by
        simp [Database.graph, hv]
      rw [h1] at hg
      obtain ⟨hg1, hg2⟩ := Prod.mk.injEq .. ▸ hg
      obtain rfl : g0 = g := by injection hg1
      subst hg2
      simp [Database.graph, hv]
    | none =>
      simp only [Database.graph, hv] at hg
      rcases hq : Database._update_graph_cache w with ⟨q, w1⟩
      rw [hq] at hg
      cases q with
      | error e => simp at hg
      | ok u =>
        cases hv2 : alookup s w1.graph_cache with
        | none => simp [hv2] at hg
        | some g1 =>
          simp [hv2] at hg
          obtain ⟨rfl, rfl⟩ := hg
          simp [Database.graph, hv2]

/-- Witness for C4 (amended): a cache miss for `users` against `wA`'s server
resolves to a proxy bound to `users` after one reconciliation request. -/
theorem lookup_cache_behavior_witness :
    (Database.collection wA (PyVal.str "users")).1 = .ok { name := "users" } ∧
    (Database.collection wA (PyVal.str "users")).2.count = wA.count + 1 :=
  ⟨(lookup_cache_behavior wA "users").2.2.1 (by decide) (by decide) (by decide),
   (lookup_cache_behavior wA "users").2.1 (by decide)⟩

/-! ### C8 -/

/-- The partitioning loop is the pair of `isSystem`-filters (names taken in
server order). -/
theorem partitionCollections_eq_filter (l : List JVal) :
    partitionCollections l =
      ((l.filter (fun c => !(c.getObj "isSystem").truthy)).map
         (fun c => (c.getObj "name").asString),
       (l.filter (fun c => (c.getObj "isSystem").truthy)).map
         (fun c => (c.getObj "name").asString)) := by
  induction l with
  | nil => rfl
  | cons c rest ih =>
    by_cases h : (c.getObj "isSystem").truthy
    · simp [partitionCollections, List.filter_cons, h, ih]
    · simp [partitionCollections, List.filter_cons, h, ih]

/-- C8: on a 200 collection-list response the `collections` listing partitions
the reported names by the server-supplied `isSystem` flag — user names are
exactly the non-system entries in server order, system names the rest — and
the `all` entry is their concatenation, user collections first; and any two
calls seeing the same server response yield identical results. -/
theorem collections_partition (w : World) :
    ((w.api w.count).status_code = 200 →
      (Database.collections w).1 = .ok
        { user := (((w.api w.count).obj.getObj "collections").asArr.filter
            (fun c => !(c.getObj "isSystem").truthy)).map
              (fun c => (c.getObj "name").asString),
          system := (((w.api w.count).obj.getObj "collections").asArr.filter
            (fun c => (c.getObj "isSystem").truthy)).map
              (fun c => (c.getObj "name").asString),
          all := ((((w.api w.count).obj.getObj "collections").asArr.filter
            (fun c => !(c.getObj "isSystem").truthy)).map
              (fun c => (c.getObj "name").asString)) ++
            ((((w.api w.count).obj.getObj "collections").asArr.filter
              (fun c => (c.getObj "isSystem").truthy)).map
                (fun c => (c.getObj "name").asString)) }) ∧
    (∀ w2 : World, w2.api w2.count = w.api w.count →
      (Database.collections w2).1 = (Database.collections w).1) := by
  constructor
  · intro h
    simp [Database.collections, issue, h, partitionCollections_eq_filter]
  · intro w2 h2
    by_cases h : (w.api w.count).status_code = 200 <;>
      simp [Database.collections, issue, h2, h]

/-- Witness for C8: against `wA`'s server the listing reports `users` as the
only user collection, `_graphs` as the only system one, concatenated user
first; a second call agrees. -/
theorem collections_partition_witness :
    (Database.collections wA).1 =
      .ok { user := ["users"], system := ["_graphs"],
            all := ["users", "_graphs"] } ∧
    (Database.collections (Database.collections wA).2).1 =
      (Database.collections wA).1 :=
  ⟨by rw [(collections_partition wA).1 (by decide)]; rfl,
   (collections_partition wA).2 (Database.collections wA).2 rfl⟩

/-! ### C2 -/

/-- A fresh facade whose server always answers 200 with `{"result": 2}`. -/
def wT : World :=
  { api := fun _ => { status_code := 200, obj := JVal.obj [("result", JVal.num 2)] },
    count := 0, trace := [], collection_cache := [], graph_cache := [],
    cursors_made := 0 }

/-- C2 counterexample: calling `execute_transaction` with every optional
parameter unset assembles query parameters in which the key `lockTimeout` is
present and bound to null — the code builds
`params = {"waitForSync": ..., "lockTimeout": lock_timeout}` unconditionally —
refuting the claim that no key of the assembled request is ever present with a
null value when the corresponding argument is unset. -/
theorem execute_transaction_counterexample :
    (Database.execute_transaction wT "return 1 + 1" none none false none).2.trace.map
        (fun req => ((req.params.getD JVal.null).hasKey "lockTimeout",
                     (req.params.getD JVal.null).getObj "lockTimeout")) =
      [(true, JVal.null)] :=
  rfl

/-- C2 as amended: `execute_transaction` issues exactly one request; in its
body the `read` and `write` collection declarations are present exactly when
supplied (never with a null value), but the query parameters always contain
both `waitForSync` and `lockTimeout`, and `lockTimeout` is bound to null
exactly when `lock_timeout` is unset. -/
theorem execute_transaction_request (w : World) (action : String)
    (rc wc : Option JVal) (wfs : Bool) (lt : Option Int) :
    ∃ req colls,
      (Database.execute_transaction w action rc wc wfs lt).2.trace =
        w.trace ++ [req] ∧
      (Database.execute_transaction w action rc wc wfs lt).2.count =
        w.count + 1 ∧
      req.method = "post" ∧ req.path = "/_api/transaction" ∧
      req.data = some (JVal.obj
        [("collections", JVal.obj colls), ("action", JVal.str action)]) ∧
      alookup "read" colls = rc ∧
      alookup "write" colls = wc ∧
      req.params = some (JVal.obj [("waitForSync", JVal.bool wfs),
                                   ("lockTimeout", optNum lt)]) ∧
      (req.params.getD JVal.null).hasKey "lockTimeout" = true ∧
      ((req.params.getD JVal.null).getObj "lockTimeout" = JVal.null ↔
        lt = none) := by
  by_cases h : (w.api w.count).status_code = 200 <;>
  · refine ⟨{ method := "post", path := "/_api/transaction",
              data := some (JVal.obj
                [("collections", JVal.obj
                    ((match rc with | some rv => [("read", rv)] | none => []) ++
                     (match wc with | some wv => [("write", wv)] | none => []))),
                 ("action", JVal.str action)]),
              params := some (JVal.obj [("waitForSync", JVal.bool wfs),
                                        ("lockTimeout", optNum lt)]) },
            (match rc with | some rv => [("read", rv)] | none => []) ++
              (match wc with | some wv => [("write", wv)] | none => []),
            ?_, ?_, rfl, rfl, rfl, ?_, ?_, rfl, ?_, ?_⟩
    · simp [Database.execute_transaction, issue, h]
    · simp [Database.execute_transaction, issue, h]
    · rcases rc with _ | rv <;> rcases wc with _ | wv <;> simp [alookup]
    · rcases rc with _ | rv <;> rcases wc with _ | wv <;> simp [alookup]
    · simp [JVal.hasKey, alookup]
    · rcases lt with _ | ltv <;> simp [JVal.getObj, alookup, optNum]

/-- Witness for C2 (amended) at a concrete call supplying only the read set. -/
theorem execute_transaction_request_witness :
    ∃ req colls,
      (Database.execute_transaction wT "return 1 + 1"
          (some (JVal.arr [JVal.str "users"])) none false none).2.trace =
        wT.trace ++ [req] ∧
      (Database.execute_transaction wT "return 1 + 1"
          (some (JVal.arr [JVal.str "users"])) none false none).2.count =
        wT.count + 1 ∧
      req.method = "post" ∧ req.path = "/_api/transaction" ∧
      req.data = some (JVal.obj
        [("collections", JVal.obj colls),
         ("action", JVal.str "return 1 + 1")]) ∧
      alookup "read" colls = some (JVal.arr [JVal.str "users"]) ∧
      alookup "write" colls = none ∧
      req.params = some (JVal.obj [("waitForSync", JVal.bool false),
                                   ("lockTimeout", optNum none)]) ∧
      (req.params.getD JVal.null).hasKey "lockTimeout" = true ∧
      ((req.params.getD JVal.null).getObj "lockTimeout" = JVal.null ↔
        none = (none : Option Int)) := by
  have h := execute_transaction_request wT "return 1 + 1"
    (some (JVal.arr [JVal.str "users"])) none false none
  simpa using h

/-! ### C5 -/

/-- C5: `execute_query` issues exactly one cursor-creation request whose body
always contains `query` (the query text) and `count`; contains `batchSize`,
`ttl` and `bindVars` exactly when the corresponding argument was supplied;
contains the nested `options` object exactly when at least one of
`full_count`, `max_plans`, `optimizer_rules` was supplied; and no field of the
body or of the nested options object is bound to a null value. -/
theorem execute_query_request (w : World) (query : String) (count : Bool)
    (batch_size ttl : Option Int) (bind_vars : Option (List (String × JVal)))
    (full_count : Option Bool) (max_plans : Option Int)
    (optimizer_rules : Option (List String)) :
    ((Database.execute_query w query count batch_size ttl bind_vars full_count
        max_plans optimizer_rules).2.trace =
      w.trace ++ [{ method := "post", path := "/_api/cursor",
                    data := some (JVal.obj (Database.execute_query_data query count
                      batch_size ttl bind_vars full_count max_plans
                      optimizer_rules)),
                    params := none }]) ∧
    alookup "query" (Database.execute_query_data query count batch_size ttl bind_vars
        full_count max_plans optimizer_rules) = some (JVal.str query) ∧
    alookup "count" (Database.execute_query_data query count batch_size ttl bind_vars
        full_count max_plans optimizer_rules) = some (JVal.bool count) ∧
    (alookup "batchSize" (Database.execute_query_data query count batch_size ttl
        bind_vars full_count max_plans optimizer_rules)).isSome =
      batch_size.isSome ∧
    (alookup "ttl" (Database.execute_query_data query count batch_size ttl bind_vars
        full_count max_plans optimizer_rules)).isSome = ttl.isSome ∧
    (alookup "bindVars" (Database.execute_query_data query count batch_size ttl
        bind_vars full_count max_plans optimizer_rules)).isSome =
      bind_vars.isSome ∧
    (alookup "options" (Database.execute_query_data query count batch_size ttl
        bind_vars full_count max_plans optimizer_rules)).isSome =
      (full_count.isSome || max_plans.isSome || optimizer_rules.isSome) ∧
    (∀ kv ∈ Database.execute_query_data query count batch_size ttl bind_vars full_count
        max_plans optimizer_rules, kv.2 ≠ JVal.null) ∧
    (∀ kv ∈ Database.execute_query_options full_count max_plans optimizer_rules,
      kv.2 ≠ JVal.null) := by
  refine ⟨?_, ?_, ?_, ?_, ?_, ?_, ?_, ?_, ?_⟩
  · by_cases h : (w.api w.count).status_code = 201 <;>
      simp [Database.execute_query, issue, mkCursor, h]
  · rfl
  · rcases batch_size with _ | b <;> simp [Database.execute_query_data, alookup]
  · rcases batch_size with _ | b <;> rcases ttl with _ | t <;>
      rcases bind_vars with _ | bv <;> rcases full_count with _ | fc <;>
      rcases max_plans with _ | mp <;> rcases optimizer_rules with _ | orr <;>
      simp [Database.execute_query_data, Database.execute_query_options, alookup]
  · rcases batch_size with _ | b <;> rcases ttl with _ | t <;>
      rcases bind_vars with _ | bv <;> rcases full_count with _ | fc <;>
      rcases max_plans with _ | mp <;> rcases optimizer_rules with _ | orr <;>
      simp [Database.execute_query_data, Database.execute_query_options, alookup]
  · rcases batch_size with _ | b <;> rcases ttl with _ | t <;>
      rcases bind_vars with _ | bv <;> rcases full_count with _ | fc <;>
      rcases max_plans with _ | mp <;> rcases optimizer_rules with _ | orr <;>
      simp [Database.execute_query_data, Database.execute_query_options, alookup]
  · rcases batch_size with _ | b <;> rcases ttl with _ | t <;>
      rcases bind_vars with _ | bv <;> rcases full_count with _ | fc <;>
      rcases max_plans with _ | mp <;> rcases optimizer_rules with _ | orr <;>
      simp [Database.execute_query_data, Database.execute_query_options, alookup]
  · rcases batch_size with _ | b <;> rcases ttl with _ | t <;>
      rcases bind_vars with _ | bv <;> rcases full_count with _ | fc <;>
      rcases max_plans with _ | mp <;> rcases optimizer_rules with _ | orr <;>
      simp [Database.execute_query_data, Database.execute_query_options]
  · rcases full_count with _ | fc <;> rcases max_plans with _ | mp <;>
      rcases optimizer_rules with _ | orr <;> simp [Database.execute_query_options]

/-- Witness for C5 at a concrete call: `batch_size` and `full_count` supplied,
everything else unset. -/
theorem execute_query_request_witness :
    (alookup "batchSize" (Database.execute_query_data "RETURN 1" true (some 2) none none
        (some true) none none)).isSome = true ∧
    (alookup "ttl" (Database.execute_query_data "RETURN 1" true (some 2) none none
        (some true) none none)).isSome = false ∧
    (alookup "options" (Database.execute_query_data "RETURN 1" true (some 2) none none
        (some true) none none)).isSome = true ∧
    (("ttl", JVal.null) ∈ Database.execute_query_data "RETURN 1" true (some 2) none none
        (some true) none none → False) :=
  ⟨(execute_query_request wT "RETURN 1" true (some 2) none none (some true)
      none none).2.2.2.1,
   (execute_query_request wT "RETURN 1" true (some 2) none none (some true)
      none none).2.2.2.2.1,
   (execute_query_request wT "RETURN 1" true (some 2) none none (some true)
      none none).2.2.2.2.2.2.1,
   fun hmem =>
     (execute_query_request wT "RETURN 1" true (some 2) none none (some true)
        none none).2.2.2.2.2.2.2.1 ("ttl", JVal.null) hmem rfl⟩

/-! ### C7 -/

/-- C7: `explain_query` issues exactly one request — a POST to `/_api/explain`
whose body carries the query and an options object with `allPlans` always,
`maxNumberOfPlans` exactly when `max_plans` was supplied and `optimizer.rules`
exactly when `optimizer_rules` was supplied — and never issues a
cursor-creation request nor touches the cursor factory (`cursors_made` is
unchanged, and the single new trace entry is the explain request).  On a 200
response that honours the server contract (a `plan` field present exactly when
`all_plans` is false) it returns the single plan when `all_plans` is false and
the plan sequence when it is true. -/
theorem explain_query_request (w : World) (query : String) (all_plans : Bool)
    (max_plans : Option Int) (optimizer_rules : Option (List String)) :
    ((Database.explain_query w query all_plans max_plans
        optimizer_rules).2.trace =
      w.trace ++ [{ method := "post", path := "/_api/explain",
                    data := some (JVal.obj
                      [("query", JVal.str query),
                       ("options", JVal.obj (Database.explain_query_options
                         all_plans max_plans optimizer_rules))]),
                    params := none }]) ∧
    (Database.explain_query w query all_plans max_plans
        optimizer_rules).2.count = w.count + 1 ∧
    (Database.explain_query w query all_plans max_plans
        optimizer_rules).2.cursors_made = w.cursors_made ∧
    alookup "allPlans" (Database.explain_query_options all_plans max_plans
        optimizer_rules) = some (JVal.bool all_plans) ∧
    (alookup "maxNumberOfPlans" (Database.explain_query_options all_plans
        max_plans optimizer_rules)).isSome = max_plans.isSome ∧
    (alookup "optimizer" (Database.explain_query_options all_plans max_plans
        optimizer_rules)).isSome = optimizer_rules.isSome ∧
    ((w.api w.count).status_code = 200 →
      (w.api w.count).obj.hasKey "plan" = !all_plans →
      (Database.explain_query w query all_plans max_plans optimizer_rules).1 =
        .ok (uncamelify ((w.api w.count).obj.getObj
          (if all_plans then "plans" else "plan")))) := by
  refine ⟨?_, ?_, ?_, rfl, ?_, ?_, ?_⟩
  · by_cases h : (w.api w.count).status_code = 200 <;>
    · simp only [Database.explain_query, issue]
      by_cases h2 : ((w.api w.count).obj.hasKey "plan") = true <;>
        simp [h, h2]
  · by_cases h : (w.api w.count).status_code = 200 <;>
    · simp only [Database.explain_query, issue]
      by_cases h2 : ((w.api w.count).obj.hasKey "plan") = true <;>
        simp [h, h2]
  · by_cases h : (w.api w.count).status_code = 200 <;>
    · simp only [Database.explain_query, issue]
      by_cases h2 : ((w.api w.count).obj.hasKey "plan") = true <;>
        simp [h, h2]
  · rcases max_plans with _ | mp <;> rcases optimizer_rules with _ | orr <;>
      simp [Database.explain_query_options, alookup]
  · rcases max_plans with _ | mp <;> rcases optimizer_rules with _ | orr <;>
      simp [Database.explain_query_options, alookup]
  · intro h hplan
    cases all_plans with
    | false =>
      simp only [Bool.not_false] at hplan
      simp [Database.explain_query, issue, h, hplan]
    | true =>
      simp only [Bool.not_true] at hplan
      simp [Database.explain_query, issue, h, hplan]

/-- Witness for C7: explaining with `all_plans = true` against `wT` (whose
response lacks a `plan` field) issues no cursor request and returns the
`plans` field. -/
theorem explain_query_request_witness :
    (Database.explain_query wT "RETURN 1" true none none).2.cursors_made = 0 ∧
    (Database.explain_query wT "RETURN 1" true none none).1 =
      .ok (uncamelify ((wT.api 0).obj.getObj "plans")) := by
  refine ⟨?_, ?_⟩
  · have h := (explain_query_request wT "RETURN 1" true none none).2.2.1
    simpa using h
  · have h := (explain_query_request wT "RETURN 1" true none none).2.2.2.2.2.2
      (by decide) (by decide)
    simpa using h

/-! ### C6 helper lemmas: per-endpoint status-code / error mapping -/

theorem properties_error_iff (w : World) (r : Response) :
    (Database.properties w).1 = .error (.databaseProperty r) ↔
      r = w.api w.count ∧ r.status_code ≠ 200 := by
  by_cases h : (w.api w.count).status_code = 200
  · simp only [Database.properties, issue]
    rw [if_neg (by simp [h])]
    simp only [reduceCtorEq, false_iff]
    rintro ⟨rfl, hne⟩
    exact hne h
  · simp only [Database.properties, issue]
    rw [if_pos (by simp [h])]
    simp only [Except.error.injEq, ArangoError.databaseProperty.injEq]
    constructor
    · intro heq
      subst heq
      exact ⟨rfl, h⟩
    · rintro ⟨rfl, _⟩
      rfl

theorem properties_ok (w : World) (h : (w.api w.count).status_code = 200) :
    ∃ v, (Database.properties w).1 = .ok v := by
  simp only [Database.properties, issue]
  rw [if_neg (by simp [h])]
  exact ⟨_, rfl⟩

theorem explain_error_iff (w : World) (q : String) (ap : Bool)
    (mp : Option Int) (orules : Option (List String)) (r : Response) :
    (Database.explain_query w q ap mp orules).1 = .error (.queryExplain r) ↔
      r = w.api w.count ∧ r.status_code ≠ 200 := by
  by_cases h : (w.api w.count).status_code = 200
  · simp only [Database.explain_query, issue]
    rw [if_neg (by simp [h])]
    by_cases h2 : ((w.api w.count).obj.hasKey "plan") = true <;>
      simp only [h2, if_true, if_false, Bool.false_eq_true, reduceCtorEq,
        false_iff] <;>
    · rintro ⟨rfl, hne⟩
      exact hne h
  · simp only [Database.explain_query, issue]
    rw [if_pos (by simp [h])]
    simp only [Except.error.injEq, ArangoError.queryExplain.injEq]
    constructor
    · intro heq
      subst heq
      exact ⟨rfl, h⟩
    · rintro ⟨rfl, _⟩
      rfl

theorem explain_ok (w : World) (q : String) (ap : Bool) (mp : Option Int)
    (orules : Option (List String))
    (h : (w.api w.count).status_code = 200) :
    ∃ v, (Database.explain_query w q ap mp orules).1 = .ok v := by
  simp only [Database.explain_query, issue]
  rw [if_neg (by simp [h])]
  by_cases h2 : ((w.api w.count).obj.hasKey "plan") = true <;> simp [h2]

theorem validate_error_iff (w : World) (q : String) (r : Response) :
    (Database.validate_query w q).1 = .error (.queryValidate r) ↔
      r = w.api w.count ∧ r.status_code ≠ 200 := by
  by_cases h : (w.api w.count).status_code = 200
  · simp only [Database.validate_query, issue]
    rw [if_neg (by simp [h])]
    simp only [reduceCtorEq, false_iff]
    rintro ⟨rfl, hne⟩
    exact hne h
  · simp only [Database.validate_query, issue]
    rw [if_pos (by simp [h])]
    simp only [Except.error.injEq, ArangoError.queryValidate.injEq]
    constructor
    · intro heq
      subst heq
      exact ⟨rfl, h⟩
    · rintro ⟨rfl, _⟩
      rfl

theorem validate_ok (w : World) (q : String)
    (h : (w.api w.count).status_code = 200) :
    ∃ v, (Database.validate_query w q).1 = .ok v := by
  simp only [Database.validate_query, issue]
  rw [if_neg (by simp [h])]
  exact ⟨(), rfl⟩

theorem execquery_error_iff (w : World) (q : String) (c : Bool)
    (bs ttl : Option Int) (bv : Option (List (String × JVal)))
    (fc : Option Bool) (mp : Option Int) (orules : Option (List String))
    (r : Response) :
    (Database.execute_query w q c bs ttl bv fc mp orules).1 =
        .error (.queryExecute r) ↔
      r = w.api w.count ∧ r.status_code ≠ 201 := by
  by_cases h : (w.api w.count).status_code = 201
  · simp only [Database.execute_query, issue, mkCursor]
    rw [if_neg (by simp [h])]
    simp only [reduceCtorEq, false_iff]
    rintro ⟨rfl, hne⟩
    exact hne h
  · simp only [Database.execute_query, issue, mkCursor]
    rw [if_pos (by simp [h])]
    simp only [Except.error.injEq, ArangoError.queryExecute.injEq]
    constructor
    · intro heq
      subst heq
      exact ⟨rfl, h⟩
    · rintro ⟨rfl, _⟩
      rfl

theorem execquery_ok (w : World) (q : String) (c : Bool) (bs ttl : Option Int)
    (bv : Option (List (String × JVal))) (fc : Option Bool) (mp : Option Int)
    (orules : Option (List String))
    (h : (w.api w.count).status_code = 201) :
    ∃ v, (Database.execute_query w q c bs ttl bv fc mp orules).1 = .ok v := by
  simp only [Database.execute_query, issue, mkCursor]
  rw [if_neg (by simp [h])]
  exact ⟨_, rfl⟩

theorem collections_error_iff (w : World) (r : Response) :
    (Database.collections w).1 = .error (.collectionList r) ↔
      r = w.api w.count ∧ r.status_code ≠ 200 := by
  by_cases h : (w.api w.count).status_code = 200
  · simp only [Database.collections, issue]
    rw [if_neg (by simp [h])]
    simp only [reduceCtorEq, false_iff]
    rintro ⟨rfl, hne⟩
    exact hne h
  · simp only [Database.collections, issue]
    rw [if_pos (by simp [h])]
    simp only [Except.error.injEq, ArangoError.collectionList.injEq]
    constructor
    · intro heq
      subst heq
      exact ⟨rfl, h⟩
    · rintro ⟨rfl, _⟩
      rfl

theorem collections_ok (w : World)
    (h : (w.api w.count).status_code = 200) :
    ∃ v, (Database.collections w).1 = .ok v := by
  simp only [Database.collections, issue]
  rw [if_neg (by simp [h])]
  exact ⟨_, rfl⟩

theorem aqlfuncs_error_iff (w : World) (r : Response) :
    (Database.aql_functions w).1 = .error (.aqlFunctionList r) ↔
      r = w.api w.count ∧ r.status_code ≠ 200 := by
  by_cases h : (w.api w.count).status_code = 200
  · simp only [Database.aql_functions, issue]
    rw [if_neg (by simp [h])]
    simp only [reduceCtorEq, false_iff]
    rintro ⟨rfl, hne⟩
    exact hne h
  · simp only [Database.aql_functions, issue]
    rw [if_pos (by simp [h])]
    simp only [Except.error.injEq, ArangoError.aqlFunctionList.injEq]
    constructor
    · intro heq
      subst heq
      exact ⟨rfl, h⟩
    · rintro ⟨rfl, _⟩
      rfl

theorem aqlfuncs_ok (w : World)
    (h : (w.api w.count).status_code = 200) :
    ∃ v, (Database.aql_functions w).1 = .ok v := by
  simp only [Database.aql_functions, issue]
  rw [if_neg (by simp [h])]
  exact ⟨_, rfl⟩

theorem txn_error_iff (w : World) (a : String) (rc wc : Option JVal)
    (wfs : Bool) (lt : Option Int) (r : Response) :
    (Database.execute_transaction w a rc wc wfs lt).1 =
        .error (.transactionExecute r) ↔
      r = w.api w.count ∧ r.status_code ≠ 200 := by
  by_cases h : (w.api w.count).status_code = 200
  · simp only [Database.execute_transaction, issue]
    rw [if_neg (by simp [h])]
    simp only [reduceCtorEq, false_iff]
    rintro ⟨rfl, hne⟩
    exact hne h
  · simp only [Database.execute_transaction, issue]
    rw [if_pos (by simp [h])]
    simp only [Except.error.injEq, ArangoError.transactionExecute.injEq]
    constructor
    · intro heq
      subst heq
      exact ⟨rfl, h⟩
    · rintro ⟨rfl, _⟩
      rfl

theorem txn_ok (w : World) (a : String) (rc wc : Option JVal) (wfs : Bool)
    (lt : Option Int) (h : (w.api w.count).status_code = 200) :
    ∃ v, (Database.execute_transaction w a rc wc wfs lt).1 = .ok v := by
  simp only [Database.execute_transaction, issue]
  rw [if_neg (by simp [h])]
  exact ⟨_, rfl⟩

theorem graphs_error_iff (w : World) (r : Response) :
    (Database.graphs w).1 = .error (.graphList r) ↔
      r = w.api w.count ∧
        ¬(r.status_code = 200 ∨ r.status_code = 202) := by
  by_cases h : (w.api w.count).status_code = 200 ∨
      (w.api w.count).status_code = 202
  · simp only [Database.graphs, issue]
    rw [if_neg (by simp [h])]
    simp only [reduceCtorEq, false_iff]
    rintro ⟨rfl, hne⟩
    exact hne h
  · simp only [Database.graphs, issue]
    rw [if_pos (by simp [h])]
    simp only [Except.error.injEq, ArangoError.graphList.injEq]
    constructor
    · intro heq
      subst heq
      exact ⟨rfl, h⟩
    · rintro ⟨rfl, _⟩
      rfl

theorem graphs_ok (w : World)
    (h : (w.api w.count).status_code = 200 ∨
      (w.api w.count).status_code = 202) :
    ∃ v, (Database.graphs w).1 = .ok v := by
  simp only [Database.graphs, issue]
  rw [if_neg (by simp [h])]
  exact ⟨_, rfl⟩

/-- Lemma: `_update_collection_cache` either succeeds or raises the list error. -/
theorem update_collection_cache_shapes (w : World) :
    (∃ w2, Database._update_collection_cache w = (.ok (), w2)) ∨
    (∃ r w2, Database._update_collection_cache w =
      (.error (.collectionList r), w2)) := by
  by_cases h : (w.api w.count).status_code = 200
  · exact .inl ⟨_, update_collection_cache_ok w h⟩
  · exact .inr ⟨_, _, update_collection_cache_err w h⟩

/-- Lemma: `_update_graph_cache` either succeeds or raises the list error. -/
theorem update_graph_cache_shapes (w : World) :
    (∃ w2, Database._update_graph_cache w = (.ok (), w2)) ∨
    (∃ r w2, Database._update_graph_cache w =
      (.error (.graphList r), w2)) := by
  by_cases h : (w.api w.count).status_code = 200 ∨
      (w.api w.count).status_code = 202
  · exact .inl ⟨_, update_graph_cache_ok w h⟩
  · exact .inr ⟨_, _, update_graph_cache_err w h⟩

/-- A string-name `collection` lookup only ever produces a proxy, a list
error, or the not-found error. -/
theorem collection_result_shapes (w : World) (s : String) :
    (∃ c, (Database.collection w (PyVal.str s)).1 = .ok c) ∨
    (∃ r, (Database.collection w (PyVal.str s)).1 =
      .error (.collectionList r)) ∨
    (Database.collection w (PyVal.str s)).1 =
      .error (.collectionNotFound s) := by
  simp only [Database.collection]
  cases hv : alookup s w.collection_cache with
  | some c => exact .inl ⟨c, rfl⟩
  | none =>
    rcases update_collection_cache_shapes w with ⟨w2, hq⟩ | ⟨r2, w2, hq⟩
    · rw [hq]
      cases hv2 : alookup s w2.collection_cache with
      | some c => exact .inl ⟨c, by simp [hv2]⟩
      | none => exact .inr (.inr (by simp [hv2]))
    · rw [hq]
      exact .inr (.inl ⟨r2, rfl⟩)

/-- A string-name `graph` lookup only ever produces a proxy, a list error, or
the not-found error. -/
theorem graph_result_shapes (w : World) (s : String) :
    (∃ g, (Database.graph w (PyVal.str s)).1 = .ok g) ∨
    (∃ r, (Database.graph w (PyVal.str s)).1 = .error (.graphList r)) ∨
    (Database.graph w (PyVal.str s)).1 = .error (.graphNotFound s) := by
  simp only [Database.graph]
  cases hv : alookup s w.graph_cache with
  | some g => exact .inl ⟨g, rfl⟩
  | none =>
    rcases update_graph_cache_shapes w with ⟨w2, hq⟩ | ⟨r2, w2, hq⟩
    · rw [hq]
      cases hv2 : alookup s w2.graph_cache with
      | some g => exact .inl ⟨g, by simp [hv2]⟩
      | none => exact .inr (.inr (by simp [hv2]))
    · rw [hq]
      exact .inr (.inl ⟨r2, rfl⟩)

theorem update_collection_cache_fst (w1 : World) :
    (Database._update_collection_cache w1).1 = .ok () ∨
    (∃ r, (Database._update_collection_cache w1).1 =
      .error (.collectionList r)) := by
  rcases update_collection_cache_shapes w1 with ⟨w2, hq⟩ | ⟨r, w2, hq⟩ <;>
    simp [hq]

theorem update_graph_cache_fst (w1 : World) :
    (Database._update_graph_cache w1).1 = .ok () ∨
    (∃ r, (Database._update_graph_cache w1).1 = .error (.graphList r)) := by
  rcases update_graph_cache_shapes w1 with ⟨w2, hq⟩ | ⟨r, w2, hq⟩ <;>
    simp [hq]

theorem aql_functions_fst (w1 : World) :
    (∃ v, (Database.aql_functions w1).1 = .ok v) ∨
    (∃ r, (Database.aql_functions w1).1 = .error (.aqlFunctionList r)) := by
  by_cases h : (w1.api w1.count).status_code = 200
  · exact .inl (aqlfuncs_ok w1 h)
  · refine .inr ⟨w1.api w1.count, ?_⟩
    simp only [Database.aql_functions, issue]
    rw [if_pos (by simp [h])]

theorem add_collection_finish_fst (w1 : World) (name : String) :
    (∃ c, (Database.add_collection_finish w1 name).1 = .ok c) ∨
    (∃ r, (Database.add_collection_finish w1 name).1 =
      .error (.collectionList r)) ∨
    ((Database.add_collection_finish w1 name).1 =
      .error (.collectionNotFound name)) := by
  simp only [Database.add_collection_finish]
  rcases update_collection_cache_shapes w1 with ⟨w2, hq⟩ | ⟨r2, w2, hq⟩
  · rw [hq]
    exact collection_result_shapes w2 name
  · rw [hq]
    exact .inr (.inl ⟨r2, rfl⟩)

theorem add_graph_finish_fst (w1 : World) (name : String) :
    (∃ g, (Database.add_graph_finish w1 name).1 = .ok g) ∨
    (∃ r, (Database.add_graph_finish w1 name).1 = .error (.graphList r)) ∨
    ((Database.add_graph_finish w1 name).1 = .error (.graphNotFound name)) := by
  simp only [Database.add_graph_finish]
  rcases update_graph_cache_shapes w1 with ⟨w2, hq⟩ | ⟨r2, w2, hq⟩
  · rw [hq]
    exact graph_result_shapes w2 name
  · rw [hq]
    exact .inr (.inl ⟨r2, rfl⟩)

theorem addcol_error_iff (w : World) (name : String) (wfs dc : Bool)
    (js : Option Int) (isys ivol : Bool) (kgt : String) (auk : Bool)
    (ki ko : Option Int) (ie : Bool) (ns : Option Int)
    (sk : Option (List String)) (r : Response) :
    (Database.add_collection w name wfs dc js isys ivol kgt auk ki ko ie ns
        sk).1 = .error (.collectionAdd r) ↔
      r = w.api w.count ∧ r.status_code ≠ 200 := by
  by_cases h : (w.api w.count).status_code = 200
  · simp only [Database.add_collection, issue]
    rw [if_neg (by simp [h])]
    constructor
    · intro hc
      exfalso
      rcases add_collection_finish_fst _ name with ⟨c, h1⟩ | ⟨r2, h1⟩ | h1 <;>
        rw [h1] at hc <;> simp at hc
    · rintro ⟨rfl, hne⟩
      exact absurd h hne
  · simp only [Database.add_collection, issue]
    rw [if_pos (by simp [h])]
    simp only [Except.error.injEq, ArangoError.collectionAdd.injEq]
    constructor
    · intro heq
      subst heq
      exact ⟨rfl, h⟩
    · rintro ⟨rfl, _⟩
      rfl

theorem remcol_error_iff (w : World) (name : String) (r : Response) :
    (Database.remove_collection w name).1 = .error (.collectionRemove r) ↔
      r = w.api w.count ∧ r.status_code ≠ 200 := by
  by_cases h : (w.api w.count).status_code = 200
  · simp only [Database.remove_collection, issue]
    rw [if_neg (by simp [h])]
    constructor
    · intro hc
      exfalso
      rcases update_collection_cache_fst _ with h1 | ⟨r2, h1⟩ <;>
        rw [h1] at hc <;> simp at hc
    · rintro ⟨rfl, hne⟩
      exact absurd h hne
  · simp only [Database.remove_collection, issue]
    rw [if_pos (by simp [h])]
    simp only [Except.error.injEq, ArangoError.collectionRemove.injEq]
    constructor
    · intro heq
      subst heq
      exact ⟨rfl, h⟩
    · rintro ⟨rfl, _⟩
      rfl

theorem rencol_error_iff (w : World) (name new_name : String) (r : Response) :
    (Database.rename_collection w name new_name).1 =
        .error (.collectionRename r) ↔
      r = w.api w.count ∧ r.status_code ≠ 200 := by
  by_cases h : (w.api w.count).status_code = 200
  · simp only [Database.rename_collection, issue]
    rw [if_neg (by simp [h])]
    constructor
    · intro hc
      exfalso
      rcases update_collection_cache_fst _ with h1 | ⟨r2, h1⟩ <;>
        rw [h1] at hc <;> simp at hc
    · rintro ⟨rfl, hne⟩
      exact absurd h hne
  · simp only [Database.rename_collection, issue]
    rw [if_pos (by simp [h])]
    simp only [Except.error.injEq, ArangoError.collectionRename.injEq]
    constructor
    · intro heq
      subst heq
      exact ⟨rfl, h⟩
    · rintro ⟨rfl, _⟩
      rfl

theorem addaql_error_iff (w : World) (name code : String) (r : Response) :
    (Database.add_aql_function w name code).1 =
        .error (.aqlFunctionAdd r) ↔
      r = w.api w.count ∧
        ¬(r.status_code = 200 ∨ r.status_code = 201) := by
  by_cases h : (w.api w.count).status_code = 200 ∨
      (w.api w.count).status_code = 201
  · simp only [Database.add_aql_function, issue]
    rw [if_neg (by simp [h])]
    constructor
    · intro hc
      exfalso
      rcases aql_functions_fst _ with ⟨v, h1⟩ | ⟨r2, h1⟩ <;>
        rw [h1] at hc <;> simp at hc
    · rintro ⟨rfl, hne⟩
      exact absurd h hne
  · simp only [Database.add_aql_function, issue]
    rw [if_pos (by simp [h])]
    simp only [Except.error.injEq, ArangoError.aqlFunctionAdd.injEq]
    constructor
    · intro heq
      subst heq
      exact ⟨rfl, h⟩
    · rintro ⟨rfl, _⟩
      rfl

theorem remaql_error_iff (w : World) (name : String) (group : Option Bool)
    (r : Response) :
    (Database.remove_aql_function w name group).1 =
        .error (.aqlFunctionRemove r) ↔
      r = w.api w.count ∧ r.status_code ≠ 200 := by
  by_cases h : (w.api w.count).status_code = 200
  · simp only [Database.remove_aql_function, issue]
    rw [if_neg (by simp [h])]
    constructor
    · intro hc
      exfalso
      rcases aql_functions_fst _ with ⟨v, h1⟩ | ⟨r2, h1⟩ <;>
        rw [h1] at hc <;> simp at hc
    · rintro ⟨rfl, hne⟩
      exact absurd h hne
  · simp only [Database.remove_aql_function, issue]
    rw [if_pos (by simp [h])]
    simp only [Except.error.injEq, ArangoError.aqlFunctionRemove.injEq]
    constructor
    · intro heq
      subst heq
      exact ⟨rfl, h⟩
    · rintro ⟨rfl, _⟩
      rfl

theorem addgraph_error_iff (w : World) (name : String)
    (ed oc : Option JVal) (r : Response) :
    (Database.add_graph w name ed oc).1 = .error (.graphAdd r) ↔
      r = w.api w.count ∧ r.status_code ≠ 201 := by
  by_cases h : (w.api w.count).status_code = 201
  · simp only [Database.add_graph, issue]
    rw [if_neg (by simp [h])]
    constructor
    · intro hc
      exfalso
      rcases add_graph_finish_fst _ name with ⟨g, h1⟩ | ⟨r2, h1⟩ | h1 <;>
        rw [h1] at hc <;> simp at hc
    · rintro ⟨rfl, hne⟩
      exact absurd h hne
  · simp only [Database.add_graph, issue]
    rw [if_pos (by simp [h])]
    simp only [Except.error.injEq, ArangoError.graphAdd.injEq]
    constructor
    · intro heq
      subst heq
      exact ⟨rfl, h⟩
    · rintro ⟨rfl, _⟩
      rfl

theorem remgraph_error_iff (w : World) (name : String) (r : Response) :
    (Database.remove_graph w name).1 = .error (.graphRemove r) ↔
      r = w.api w.count ∧ r.status_code ≠ 200 := by
  by_cases h : (w.api w.count).status_code = 200
  · simp only [Database.remove_graph, issue]
    rw [if_neg (by simp [h])]
    constructor
    · intro hc
      exfalso
      rcases update_graph_cache_fst _ with h1 | ⟨r2, h1⟩ <;>
        rw [h1] at hc <;> simp at hc
    · rintro ⟨rfl, hne⟩
      exact absurd h hne
  · simp only [Database.remove_graph, issue]
    rw [if_pos (by simp [h])]
    simp only [Except.error.injEq, ArangoError.graphRemove.injEq]
    constructor
    · intro heq
      subst heq
      exact ⟨rfl, h⟩
    · rintro ⟨rfl, _⟩
      rfl

/-! ### C6 -/

/-- C6: for every facade operation, the operation's specific typed error
carrying a raw response `r` is raised exactly when `r` is the response the
server gave to that operation's own request and its status code is outside the
endpoint's declared success set (`execute_query`: 201; `add_aql_function`:
200 or 201; graph list: 200 or 202; graph creation: 201; everything else:
200).  For the single-round-trip operations a success code additionally
guarantees a successful result.  (The cache-reconciliation follow-up requests
of the composite mutating operations are governed by the list-endpoint clauses
of this same theorem; the response-free local errors — not-found and
invalid-argument — are outside the status-code mapping.) -/
theorem status_error_mapping :
    (∀ (w : World) (r : Response),
      ((Database.properties w).1 = .error (.databaseProperty r) ↔
        r = w.api w.count ∧ r.status_code ≠ 200) ∧
      ((w.api w.count).status_code = 200 →
        ∃ v, (Database.properties w).1 = .ok v)) ∧
    (∀ (w : World) (q : String) (ap : Bool) (mp : Option Int)
        (orules : Option (List String)),
      (∀ r, (Database.explain_query w q ap mp orules).1 =
          .error (.queryExplain r) ↔
        r = w.api w.count ∧ r.status_code ≠ 200) ∧
      ((w.api w.count).status_code = 200 →
        ∃ v, (Database.explain_query w q ap mp orules).1 = .ok v)) ∧
    (∀ (w : World) (q : String),
      (∀ r, (Database.validate_query w q).1 = .error (.queryValidate r) ↔
        r = w.api w.count ∧ r.status_code ≠ 200) ∧
      ((w.api w.count).status_code = 200 →
        ∃ v, (Database.validate_query w q).1 = .ok v)) ∧
    (∀ (w : World) (q : String) (c : Bool) (bs ttl : Option Int)
        (bv : Option (List (String × JVal))) (fc : Option Bool)
        (mp : Option Int) (orules : Option (List String)),
      (∀ r, (Database.execute_query w q c bs ttl bv fc mp orules).1 =
          .error (.queryExecute r) ↔
        r = w.api w.count ∧ r.status_code ≠ 201) ∧
      ((w.api w.count).status_code = 201 →
        ∃ v, (Database.execute_query w q c bs ttl bv fc mp orules).1 =
          .ok v)) ∧
    (∀ (w : World) (r : Response),
      ((Database.collections w).1 = .error (.collectionList r) ↔
        r = w.api w.count ∧ r.status_code ≠ 200) ∧
      ((w.api w.count).status_code = 200 →
        ∃ v, (Database.collections w).1 = .ok v)) ∧
    (∀ (w : World) (name : String) (wfs dc : Bool) (js : Option Int)
        (isys ivol : Bool) (kgt : String) (auk : Bool) (ki ko : Option Int)
        (ie : Bool) (ns : Option Int) (sk : Option (List String)) (r : Response),
      (Database.add_collection w name wfs dc js isys ivol kgt auk ki ko ie ns
          sk).1 = .error (.collectionAdd r) ↔
        r = w.api w.count ∧ r.status_code ≠ 200) ∧
    (∀ (w : World) (name : String) (r : Response),
      (Database.remove_collection w name).1 = .error (.collectionRemove r) ↔
        r = w.api w.count ∧ r.status_code ≠ 200) ∧
    (∀ (w : World) (name new_name : String) (r : Response),
      (Database.rename_collection w name new_name).1 =
          .error (.collectionRename r) ↔
        r = w.api w.count ∧ r.status_code ≠ 200) ∧
    (∀ (w : World) (r : Response),
      ((Database.aql_functions w).1 = .error (.aqlFunctionList r) ↔
        r = w.api w.count ∧ r.status_code ≠ 200) ∧
      ((w.api w.count).status_code = 200 →
        ∃ v, (Database.aql_functions w).1 = .ok v)) ∧
    (∀ (w : World) (name code : String) (r : Response),
      (Database.add_aql_function w name code).1 =
          .error (.aqlFunctionAdd r) ↔
        r = w.api w.count ∧
          ¬(r.status_code = 200 ∨ r.status_code = 201)) ∧
    (∀ (w : World) (name : String) (group : Option Bool) (r : Response),
      (Database.remove_aql_function w name group).1 =
          .error (.aqlFunctionRemove r) ↔
        r = w.api w.count ∧ r.status_code ≠ 200) ∧
    (∀ (w : World) (a : String) (rc wc : Option JVal) (wfs : Bool)
        (lt : Option Int),
      (∀ r, (Database.execute_transaction w a rc wc wfs lt).1 =
          .error (.transactionExecute r) ↔
        r = w.api w.count ∧ r.status_code ≠ 200) ∧
      ((w.api w.count).status_code = 200 →
        ∃ v, (Database.execute_transaction w a rc wc wfs lt).1 = .ok v)) ∧
    (∀ (w : World) (r : Response),
      ((Database.graphs w).1 = .error (.graphList r) ↔
        r = w.api w.count ∧
          ¬(r.status_code = 200 ∨ r.status_code = 202)) ∧
      ((w.api w.count).status_code = 200 ∨ (w.api w.count).status_code = 202 →
        ∃ v, (Database.graphs w).1 = .ok v)) ∧
    (∀ (w : World) (name : String) (ed oc : Option JVal) (r : Response),
      (Database.add_graph w name ed oc).1 = .error (.graphAdd r) ↔
        r = w.api w.count ∧ r.status_code ≠ 201) ∧
    (∀ (w : World) (name : String) (r : Response),
      (Database.remove_graph w name).1 = .error (.graphRemove r) ↔
        r = w.api w.count ∧ r.status_code ≠ 200) :=
  ⟨fun w r => ⟨properties_error_iff w r, properties_ok w⟩,
   fun w q ap mp orules =>
     ⟨fun r => explain_error_iff w q ap mp orules r, explain_ok w q ap mp orules⟩,
   fun w q => ⟨fun r => validate_error_iff w q r, validate_ok w q⟩,
   fun w q c bs ttl bv fc mp orules =>
     ⟨fun r => execquery_error_iff w q c bs ttl bv fc mp orules r,
      execquery_ok w q c bs ttl bv fc mp orules⟩,
   fun w r => ⟨collections_error_iff w r, collections_ok w⟩,
   fun w name wfs dc js isys ivol kgt auk ki ko ie ns sk r =>
     addcol_error_iff w name wfs dc js isys ivol kgt auk ki ko ie ns sk r,
   fun w name r => remcol_error_iff w name r,
   fun w name new_name r => rencol_error_iff w name new_name r,
   fun w r => ⟨aqlfuncs_error_iff w r, aqlfuncs_ok w⟩,
   fun w name code r => addaql_error_iff w name code r,
   fun w name group r => remaql_error_iff w name group r,
   fun w a rc wc wfs lt =>
     ⟨fun r => txn_error_iff w a rc wc wfs lt r, txn_ok w a rc wc wfs lt⟩,
   fun w r => ⟨graphs_error_iff w r, graphs_ok w⟩,
   fun w name ed oc r => addgraph_error_iff w name ed oc r,
   fun w name r => remgraph_error_iff w name r⟩

/-- Witness for C6: a 500 on the graph-list endpoint raises `GraphListError`
carrying that response, and a 200 on the collection-list endpoint yields a
successful result. -/
theorem status_error_mapping_witness :
    (Database.graphs wBad).1 = .error (.graphList (wBad.api wBad.count)) ∧
    ∃ v, (Database.collections wA).1 = .ok v :=
  ⟨((status_error_mapping.2.2.2.2.2.2.2.2.2.2.2.2.1 wBad
      (wBad.api wBad.count)).1).mpr ⟨rfl, by decide⟩,
   (status_error_mapping.2.2.2.2.1 wA (wA.api wA.count)).2 (by decide)⟩

end PyArango
